import Mathlib

/-!
Verification of the folder data-access layer
(`backend/open_webui/apps/webui/models/folders.py`).

The persisted table is modelled as a list of records (`DB`), insertion
ordered; SQLAlchemy's `.first()` on an equality filter is `List.find?`,
`.all()` is `List.filter`, and a committed in-place row update keyed by the
primary key is a map over the list.  Each Python method becomes a Lean
function; since a method body either returns a value or lets an exception
escape, its result type is `PyResult`: `ok v` is a normal return, `raised`
an uncaught exception reaching the caller.  A Boolean `storageFail`
parameter says whether the storage layer raises during the call; methods
whose body wraps the storage work in `try/except` turn that failure into
their negative result, methods without a handler turn it into `raised`.
The wall clock (`int(time.time())`) is a `now : Nat` parameter, one value
per call; the uuid4 id generated by `insert_new_folder` is a `newId`
parameter, with freshness taken as a hypothesis where a claim needs it.
-/

/-- Items payload of a folder (pydantic model `FolderItems`): optional
lists of chat ids and file ids. -/
structure FolderItems where
  chat_ids : Option (List String) := none
  file_ids : Option (List String) := none
deriving Repr, DecidableEq

/-- A folder record (pydantic model `FolderModel` / table `folder`).
The free-form `meta` JSON column is modelled as an association list. -/
structure FolderModel where
  id : String
  parent_id : Option String := none
  user_id : String
  name : String
  items : Option FolderItems := none
  meta : Option (List (String × String)) := none
  created_at : Nat
  updated_at : Nat
deriving Repr, DecidableEq

/-- The `folder` table: records in insertion order. -/
abbrev DB := List FolderModel

/-- Outcome of calling a Python method: a normal return, or an exception
that escaped the method. -/
inductive PyResult (α : Type) where
  | ok : α → PyResult α
  | raised : PyResult α
deriving Repr, DecidableEq

/-- The `filter_by(id=id, user_id=user_id)` predicate used by every
by-id lookup in `FolderTable`. -/
def matchIdUser (id user_id : String) (f : FolderModel) : Bool :=
  f.id == id && f.user_id == user_id

/-- The record built by `insert_new_folder`: fresh id, the supplied
`user_id`, `name`, `parent_id`, both timestamps set to the current time,
`items` and `meta` left at their pydantic defaults (`None`). -/
def newFolder (user_id name : String) (parent_id : Option String)
    (newId : String) (now : Nat) : FolderModel :=
  { id := newId, parent_id := parent_id, user_id := user_id, name := name,
    items := none, meta := none, created_at := now, updated_at := now }

/-- A committed row update: the mutated ORM instance is written back to
the row with its primary key (`UPDATE ... WHERE id = f.id`). -/
def commitUpdate (db : DB) (f : FolderModel) : DB :=
  db.map (fun g => if g.id == f.id then f else g)

/-- `FolderTable.insert_new_folder`: build the record, `db.add` + commit.
The storage work is inside `try/except`, so a storage failure is absorbed
and reported as `None`; on success the new row is appended and the model
returned. -/
def insert_new_folder (db : DB) (user_id name : String)
    (parent_id : Option String) (newId : String) (now : Nat)
    (storageFail : Bool) : PyResult (DB × Option FolderModel) :=
  let folder := newFolder user_id name parent_id newId now
  if storageFail then .ok (db, none)
  else .ok (db ++ [folder], some folder)

/-- `FolderTable.get_folder_by_id_and_user_id`: first row matching
`(id, user_id)`, `None` if there is none; the whole body is inside
`try/except`, so a storage failure also comes back as `None`. -/
def get_folder_by_id_and_user_id (db : DB) (id user_id : String)
    (storageFail : Bool) : PyResult (Option FolderModel) :=
  if storageFail then .ok none
  else .ok (db.find? (matchIdUser id user_id))

/-- `FolderTable.get_folders_by_user_id`: all rows of the user.  The body
has no `try/except`, so a storage failure escapes to the caller. -/
def get_folders_by_user_id (db : DB) (user_id : String)
    (storageFail : Bool) : PyResult (List FolderModel) :=
  if storageFail then .raised
  else .ok (db.filter (fun f => f.user_id == user_id))

/-- `FolderTable.get_folder_by_parent_id_and_user_id_and_name`: first row
with the given `parent_id` and `user_id` whose stored `name` equals the
lower-cased form of the supplied `name` (`name.lower()` is applied to the
query argument only).  Wrapped in `try/except`: failures become `None`. -/
def get_folder_by_parent_id_and_user_id_and_name (db : DB)
    (parent_id : Option String) (user_id name : String)
    (storageFail : Bool) : PyResult (Option FolderModel) :=
  if storageFail then .ok none
  else .ok (db.find? (fun f =>
    f.parent_id == parent_id && f.user_id == user_id &&
      f.name == name.toLower))

/-- `FolderTable.get_folders_by_parent_id_and_user_id`: all rows with the
given `parent_id` and `user_id`.  No `try/except`: a storage failure
escapes to the caller. -/
def get_folders_by_parent_id_and_user_id (db : DB)
    (parent_id : Option String) (user_id : String)
    (storageFail : Bool) : PyResult (List FolderModel) :=
  if storageFail then .raised
  else .ok (db.filter (fun f =>
    f.parent_id == parent_id && f.user_id == user_id))

/-- `FolderTable.update_folder_parent_id_by_id_and_user_id`: look up by
`(id, user_id)` (`None` if absent), overwrite `parent_id` with the
supplied (non-optional) value, set `updated_at` to now, commit.  Wrapped
in `try/except`: a storage failure rolls back and returns `None`. -/
def update_folder_parent_id_by_id_and_user_id (db : DB)
    (id user_id parent_id : String) (now : Nat)
    (storageFail : Bool) : PyResult (DB × Option FolderModel) :=
  match db.find? (matchIdUser id user_id) with
  | none => .ok (db, none)
  | some folder =>
    if storageFail then .ok (db, none)
    else
      let folder' : FolderModel :=
        { folder with parent_id := some parent_id, updated_at := now }
      .ok (commitUpdate db folder', some folder')

/-- `FolderTable.update_folder_name_by_id_and_user_id`: look up by
`(id, user_id)` (`None` if absent); then query for any row with
`(name = name, parent_id = folder.parent_id, user_id)` — note the exact,
not lower-cased, `name` — and if one exists return `None` without
mutating; otherwise overwrite `name`, set `updated_at`, commit.  Wrapped
in `try/except`: a storage failure rolls back and returns `None`. -/
def update_folder_name_by_id_and_user_id (db : DB)
    (id user_id name : String) (now : Nat)
    (storageFail : Bool) : PyResult (DB × Option FolderModel) :=
  match db.find? (matchIdUser id user_id) with
  | none => .ok (db, none)
  | some folder =>
    match db.find? (fun g =>
        g.name == name && g.parent_id == folder.parent_id &&
          g.user_id == user_id) with
    | some _ => .ok (db, none)
    | none =>
      if storageFail then .ok (db, none)
      else
        let folder' : FolderModel :=
          { folder with name := name, updated_at := now }
        .ok (commitUpdate db folder', some folder')

/-- `FolderTable.update_folder_items_by_id_and_user_id`: look up by
`(id, user_id)` (`None` if absent), replace the whole `items` payload,
set `updated_at`, commit.  Wrapped in `try/except`. -/
def update_folder_items_by_id_and_user_id (db : DB)
    (id user_id : String) (items : FolderItems) (now : Nat)
    (storageFail : Bool) : PyResult (DB × Option FolderModel) :=
  match db.find? (matchIdUser id user_id) with
  | none => .ok (db, none)
  | some folder =>
    if storageFail then .ok (db, none)
    else
      let folder' : FolderModel :=
        { folder with items := some items, updated_at := now }
      .ok (commitUpdate db folder', some folder')

/-- `FolderTable.delete_folder_by_id_and_user_id`: look up by
`(id, user_id)`; `db.delete(folder)` on the `None` of a missed lookup
raises inside the `try`, so a miss returns `False`; on a hit the row with
that primary key is deleted and `True` returned; a storage failure is
caught and returns `False`. -/
def delete_folder_by_id_and_user_id (db : DB) (id user_id : String)
    (storageFail : Bool) : PyResult (DB × Bool) :=
  match db.find? (matchIdUser id user_id) with
  | none => .ok (db, false)
  | some folder =>
    if storageFail then .ok (db, false)
    else .ok (db.filter (fun g => !(g.id == folder.id)), true)

/-- Primary-key invariant guaranteed by the storage engine: `id` is the
primary key of the `folder` table, so two stored records with the same
`id` are the same record. -/
def UniqueIds (db : DB) : Prop :=
  ∀ f ∈ db, ∀ g ∈ db, f.id = g.id → f = g

instance : DecidablePred UniqueIds := fun db =>
  inferInstanceAs (Decidable (∀ f ∈ db, ∀ g ∈ db, f.id = g.id → f = g))

/-- Sample folder for concrete witnesses: root folder "Work" of user u1. -/
def fWork : FolderModel :=
  { id := "a1", parent_id := none, user_id := "u1", name := "Work",
    created_at := 10, updated_at := 10 }

/-- Sample folder for concrete witnesses: root folder "Personal" of u1. -/
def fPersonal : FolderModel :=
  { id := "b2", parent_id := none, user_id := "u1", name := "Personal",
    created_at := 11, updated_at := 11 }

/-- Sample folder for concrete witnesses: root folder "work" of u1,
the lower-cased sibling of `fWork`. -/
def fWorkLower : FolderModel :=
  { id := "c3", parent_id := none, user_id := "u1", name := "work",
    created_at := 12, updated_at := 12 }

/-- C1: creating a folder and reading it back by the returned id under the
same user yields a folder whose `name`, `parent_id` and `user_id` are the
ones supplied at creation, with `created_at = updated_at`.  The generated
uuid4 is assumed fresh (`hfresh`). -/
theorem create_then_get_roundtrip (db : DB) (user_id name : String)
    (parent_id : Option String) (newId : String) (now : Nat)
    (hfresh : ∀ f ∈ db, f.id ≠ newId) :
    insert_new_folder db user_id name parent_id newId now false =
      .ok (db ++ [newFolder user_id name parent_id newId now],
           some (newFolder user_id name parent_id newId now)) ∧
    get_folder_by_id_and_user_id
        (db ++ [newFolder user_id name parent_id newId now])
        (newFolder user_id name parent_id newId now).id user_id false =
      .ok (some (newFolder user_id name parent_id newId now)) ∧
    (newFolder user_id name parent_id newId now).name = name ∧
    (newFolder user_id name parent_id newId now).parent_id = parent_id ∧
    (newFolder user_id name parent_id newId now).user_id = user_id ∧
    (newFolder user_id name parent_id newId now).created_at =
      (newFolder user_id name parent_id newId now).updated_at := by
  refine ⟨rfl, ?_, rfl, rfl, rfl, rfl⟩
  have hnone : db.find?
      (matchIdUser (newFolder user_id name parent_id newId now).id user_id)
        = none := by
    rw [List.find?_eq_none]
    intro f hf hp
    simp only [matchIdUser, newFolder, Bool.and_eq_true, beq_iff_eq] at hp
    exact hfresh f hf hp.1
  unfold get_folder_by_id_and_user_id
  rw [if_neg Bool.false_ne_true, List.find?_append, hnone, Option.none_or,
    List.find?_cons_of_pos _ (by simp [matchIdUser, newFolder])]

/-- C1 witness: the roundtrip at a concrete store and inputs. -/
theorem create_then_get_roundtrip_witness :
    get_folder_by_id_and_user_id
        ([fWork] ++ [newFolder "u2" "Play" none "n9" 42])
        (newFolder "u2" "Play" none "n9" 42).id "u2" false =
      .ok (some (newFolder "u2" "Play" none "n9" 42)) :=
  (create_then_get_roundtrip [fWork] "u2" "Play" none "n9" 42
    (by decide)).2.1

/-- C3: looking a stored folder up by its id under a different `user_id`
returns `None` (the lookup filters by owner), whatever the storage does,
given the primary-key uniqueness of ids. -/
theorem get_folder_wrong_user_not_found (db : DB) (f : FolderModel)
    (u : String) (sf : Bool) (hwf : UniqueIds db) (hf : f ∈ db)
    (hu : u ≠ f.user_id) :
    get_folder_by_id_and_user_id db f.id u sf = .ok none := by
  cases sf with
  | true => rfl
  | false =>
    have hnone : db.find? (matchIdUser f.id u) = none := by
      rw [List.find?_eq_none]
      intro g hg hp
      simp only [matchIdUser, Bool.and_eq_true, beq_iff_eq] at hp
      obtain ⟨hid, huser⟩ := hp
      exact hu ((hwf g hg f hf hid ▸ huser).symm)
    unfold get_folder_by_id_and_user_id
    rw [if_neg Bool.false_ne_true, hnone]

/-- C3 witness: u2 cannot see u1's folder by id. -/
theorem get_folder_wrong_user_not_found_witness :
    get_folder_by_id_and_user_id [fWork] fWork.id "u2" false = .ok none :=
  get_folder_wrong_user_not_found [fWork] fWork "u2" false (by decide)
    (by decide) (by decide)

/-- C9: renaming a reachable folder to its own current name hits the
existence check (which matches the target itself) and returns `None`
leaving the store unchanged. -/
theorem rename_to_own_name_rejected (db : DB) (id user_id : String)
    (now : Nat) (sf : Bool) (folder : FolderModel)
    (hfind : db.find? (matchIdUser id user_id) = some folder) :
    update_folder_name_by_id_and_user_id db id user_id folder.name now sf =
      .ok (db, none) := by
  have hmem : folder ∈ db := List.mem_of_find?_eq_some hfind
  have hmatch : matchIdUser id user_id folder = true := List.find?_some hfind
  simp only [matchIdUser, Bool.and_eq_true, beq_iff_eq] at hmatch
  have hsome : (db.find? (fun g =>
      g.name == folder.name && g.parent_id == folder.parent_id &&
        g.user_id == user_id)).isSome := by
    rw [List.find?_isSome]
    exact ⟨folder, hmem, by simp [hmatch.2]⟩
  obtain ⟨g, hg⟩ := Option.isSome_iff_exists.mp hsome
  simp only [update_folder_name_by_id_and_user_id, hfind, hg]

/-- C9 witness: renaming "Work" to "Work" is rejected with no mutation. -/
theorem rename_to_own_name_rejected_witness :
    update_folder_name_by_id_and_user_id [fWork] "a1" "u1" fWork.name 99
      false = .ok ([fWork], none) :=
  rename_to_own_name_rejected [fWork] "a1" "u1" 99 false fWork (by decide)

/-- C2: renaming a reachable folder to a name already carried by another
folder with the same `parent_id` and `user_id` is rejected with `None`
and no mutation: both the store and its target folder, in particular its
`name` and `updated_at`, are exactly as before the call. -/
theorem rename_conflict_rejected (db : DB) (id user_id new_name : String)
    (now : Nat) (sf : Bool) (folder other : FolderModel)
    (hfind : db.find? (matchIdUser id user_id) = some folder)
    (hother : other ∈ db) (_hne : other.id ≠ folder.id)
    (hname : other.name = new_name)
    (hpar : other.parent_id = folder.parent_id)
    (huser : other.user_id = user_id) :
    update_folder_name_by_id_and_user_id db id user_id new_name now sf =
      .ok (db, none) := by
  have hsome : (db.find? (fun g =>
      g.name == new_name && g.parent_id == folder.parent_id &&
        g.user_id == user_id)).isSome := by
    rw [List.find?_isSome]
    exact ⟨other, hother, by simp [hname, hpar, huser]⟩
  obtain ⟨g, hg⟩ := Option.isSome_iff_exists.mp hsome
  simp only [update_folder_name_by_id_and_user_id, hfind, hg]

/-- C2 witness: renaming "Personal" to "Work" while a sibling "Work"
exists is rejected and mutates nothing. -/
theorem rename_conflict_rejected_witness :
    update_folder_name_by_id_and_user_id [fWork, fPersonal] "b2" "u1"
      "Work" 99 false = .ok ([fWork, fPersonal], none) :=
  rename_conflict_rejected [fWork, fPersonal] "b2" "u1" "Work" 99 false
    fPersonal fWork (by decide) (by decide) (by decide) (by decide)
    (by decide) (by decide)

/-- C5: re-parenting a reachable folder overwrites its `parent_id` with
the supplied value and sets `updated_at` to the current time, which is
strictly greater than the previous `updated_at` whenever the clock has
advanced past it (`hnow`, the spec's timestamp-resolution assumption);
the updated record is stored. -/
theorem set_parent_updates_parent_and_time (db : DB)
    (id user_id new_parent : String) (now : Nat) (folder : FolderModel)
    (hfind : db.find? (matchIdUser id user_id) = some folder)
    (hnow : folder.updated_at < now) :
    update_folder_parent_id_by_id_and_user_id db id user_id new_parent now
        false =
      .ok (commitUpdate db
             { folder with parent_id := some new_parent, updated_at := now },
           some { folder with parent_id := some new_parent, updated_at := now }) ∧
    ({ folder with parent_id := some new_parent, updated_at := now } : FolderModel).parent_id = some new_parent ∧
    folder.updated_at <
      ({ folder with parent_id := some new_parent, updated_at := now } : FolderModel).updated_at ∧
    ({ folder with parent_id := some new_parent, updated_at := now } : FolderModel) ∈
      commitUpdate db
        { folder with parent_id := some new_parent, updated_at := now } := by
  refine ⟨?_, rfl, hnow, ?_⟩
  · simp [update_folder_parent_id_by_id_and_user_id, hfind]
  · have hmem : folder ∈ db := List.mem_of_find?_eq_some hfind
    unfold commitUpdate
    refine List.mem_map.mpr ⟨folder, hmem, ?_⟩
    simp

/-- C5 witness: re-parenting "Work" under id "b2" at a later time. -/
theorem set_parent_updates_parent_and_time_witness :
    update_folder_parent_id_by_id_and_user_id [fWork] "a1" "u1" "b2" 99
      false =
      .ok (commitUpdate [fWork]
             { fWork with parent_id := some "b2", updated_at := 99 },
           some { fWork with parent_id := some "b2", updated_at := 99 }) :=
  (set_parent_updates_parent_and_time [fWork] "a1" "u1" "b2" 99 fWork
    (by decide) (by decide)).1

/-- C6: delete reports `False` and leaves the store unchanged whenever no
record matches `(id, user_id)`; in particular deleting a stored folder's
id under a different `user_id` fails and keeps the record (given the
primary-key uniqueness of ids). -/
theorem delete_no_match_reports_false :
    (∀ (db : DB) (id u : String) (sf : Bool),
        db.find? (matchIdUser id u) = none →
        delete_folder_by_id_and_user_id db id u sf = .ok (db, false)) ∧
    (∀ (db : DB) (f : FolderModel) (u : String) (sf : Bool),
        UniqueIds db → f ∈ db → u ≠ f.user_id →
        delete_folder_by_id_and_user_id db f.id u sf = .ok (db, false)) := by
  constructor
  · intro db id u sf hnone
    simp only [delete_folder_by_id_and_user_id, hnone]
  · intro db f u sf hwf hf hu
    have hnone : db.find? (matchIdUser f.id u) = none := by
      rw [List.find?_eq_none]
      intro g hg hp
      simp only [matchIdUser, Bool.and_eq_true, beq_iff_eq] at hp
      obtain ⟨hid, huser⟩ := hp
      exact hu ((hwf g hg f hf hid ▸ huser).symm)
    simp only [delete_folder_by_id_and_user_id, hnone]

/-- C6 witness: u2 deleting u1's folder fails and the record stays. -/
theorem delete_no_match_reports_false_witness :
    delete_folder_by_id_and_user_id [fWork] fWork.id "u2" false =
      .ok ([fWork], false) :=
  delete_no_match_reports_false.2 [fWork] fWork "u2" false (by decide)
    (by decide) (by decide)

/-- C8: `insert_new_folder` performs no sibling-name uniqueness check:
with a folder `g` of the same `(user_id, name, parent_id)` already
stored, the insert still succeeds and appends a second folder with those
fields, whose freshly generated id differs from every stored id. -/
theorem insert_allows_duplicate_sibling_name (db : DB)
    (user_id name : String) (parent_id : Option String) (g : FolderModel)
    (newId : String) (now : Nat) (_hg : g ∈ db) (hgu : g.user_id = user_id)
    (hgn : g.name = name) (hgp : g.parent_id = parent_id)
    (hfresh : ∀ f ∈ db, f.id ≠ newId) :
    insert_new_folder db user_id name parent_id newId now false =
      .ok (db ++ [newFolder user_id name parent_id newId now],
           some (newFolder user_id name parent_id newId now)) ∧
    (newFolder user_id name parent_id newId now).user_id = g.user_id ∧
    (newFolder user_id name parent_id newId now).name = g.name ∧
    (newFolder user_id name parent_id newId now).parent_id = g.parent_id ∧
    ∀ f ∈ db, f.id ≠ (newFolder user_id name parent_id newId now).id :=
  ⟨rfl, by simp [newFolder, hgu], by simp [newFolder, hgn],
    by simp [newFolder, hgp], hfresh⟩

/-- C8 witness: a second root "Work" for u1 is inserted alongside the
existing one. -/
theorem insert_allows_duplicate_sibling_name_witness :
    insert_new_folder [fWork] "u1" "Work" none "z9" 77 false =
      .ok ([fWork] ++ [newFolder "u1" "Work" none "z9" 77],
           some (newFolder "u1" "Work" none "z9" 77)) :=
  (insert_allows_duplicate_sibling_name [fWork] "u1" "Work" none fWork
    "z9" 77 (by decide) (by decide) (by decide) (by decide)
    (by decide)).1

/-- Computation of the lower-cased sample name ("Work" maps to "work");
`String.toLower` is by well-founded recursion, so this goes through
`String.map_eq` rather than plain evaluation. -/
theorem fWork_name_toLower : fWork.name.toLower = "work" := by
  show ("Work" : String).toLower = "work"
  rw [String.toLower, String.map_eq]
  decide

/-- C4 counterexample: the stored folder "Work" (upper-case) is looked up
by its exact name, yet the result is not absent — the lower-cased query
matches the sibling stored as "work" instead. -/
theorem find_by_name_uppercase_cex :
    fWork ∈ [fWork, fWorkLower] ∧
    fWork.name.data.any Char.isUpper = true ∧
    get_folder_by_parent_id_and_user_id_and_name [fWork, fWorkLower]
      fWork.parent_id fWork.user_id fWork.name false = .ok (some fWorkLower) ∧
    some fWorkLower ≠ (none : Option FolderModel) := by
  refine ⟨by decide, by decide, ?_, by decide⟩
  show PyResult.ok ([fWork, fWorkLower].find? (fun f =>
      f.parent_id == fWork.parent_id && f.user_id == fWork.user_id &&
        f.name == fWork.name.toLower)) = .ok (some fWorkLower)
  rw [fWork_name_toLower]
  decide

/-- C4 amended: the lookup returns a folder exactly when some stored
folder has the given `parent_id` and `user_id` and a stored `name` equal
to the lower-cased supplied name; and for a stored folder whose name has
an upper-case letter, looking it up by that exact name returns an absent
result provided no folder with the same `parent_id` and `user_id` is
stored under the lower-cased form. -/
theorem find_by_name_lowercases_query (db : DB)
    (parent_id : Option String) (user_id name : String) :
    ((∃ f, get_folder_by_parent_id_and_user_id_and_name db parent_id
        user_id name false = .ok (some f)) ↔
      ∃ f ∈ db, f.parent_id = parent_id ∧ f.user_id = user_id ∧
        f.name = name.toLower) ∧
    (∀ g ∈ db, g.name.data.any Char.isUpper = true →
      (∀ f ∈ db, ¬(f.parent_id = g.parent_id ∧ f.user_id = g.user_id ∧
        f.name = g.name.toLower)) →
      get_folder_by_parent_id_and_user_id_and_name db g.parent_id
        g.user_id g.name false = .ok none) := by
  have hunfold : ∀ (pid : Option String) (uid nm : String),
      get_folder_by_parent_id_and_user_id_and_name db pid uid nm false =
        .ok (db.find? (fun f =>
          f.parent_id == pid && f.user_id == uid &&
            f.name == nm.toLower)) := fun _ _ _ => rfl
  constructor
  · constructor
    · rintro ⟨f, hf⟩
      rw [hunfold, PyResult.ok.injEq] at hf
      refine ⟨f, List.mem_of_find?_eq_some hf, ?_⟩
      have hp := List.find?_some hf
      simp only [Bool.and_eq_true, beq_iff_eq] at hp
      exact ⟨hp.1.1, hp.1.2, hp.2⟩
    · rintro ⟨f, hmem, hp⟩
      have hsome : (db.find? (fun f =>
          f.parent_id == parent_id && f.user_id == user_id &&
            f.name == name.toLower)).isSome := by
        rw [List.find?_isSome]
        exact ⟨f, hmem, by simp [hp.1, hp.2.1, hp.2.2]⟩
      obtain ⟨g, hg⟩ := Option.isSome_iff_exists.mp hsome
      exact ⟨g, by rw [hunfold, hg]⟩
  · intro g hgmem hupper hnomatch
    have hnone : db.find? (fun f =>
        f.parent_id == g.parent_id && f.user_id == g.user_id &&
          f.name == g.name.toLower) = none := by
      rw [List.find?_eq_none]
      intro f hf hp
      simp only [Bool.and_eq_true, beq_iff_eq] at hp
      exact hnomatch f hf ⟨hp.1.1, hp.1.2, hp.2⟩
    rw [hunfold, hnone]

/-- C4 amended witness: with only "Work" stored and no lower-cased
sibling, the exact-name lookup comes back absent. -/
theorem find_by_name_lowercases_query_witness :
    get_folder_by_parent_id_and_user_id_and_name [fWork] fWork.parent_id
      fWork.user_id fWork.name false = .ok none :=
  (find_by_name_lowercases_query [fWork] fWork.parent_id fWork.user_id
    fWork.name).2 fWork (by decide) (by decide)
    (by rw [fWork_name_toLower]; decide)

/-- C7 counterexample: `get_folders_by_user_id` has no exception handler,
so a storage failure escapes to the caller instead of being absorbed. -/
theorem list_folders_propagates_error_cex :
    get_folders_by_user_id [] "u1" true = .raised := rfl

/-- C7 amended: every `FolderTable` operation except the two listing
operations absorbs a storage failure and returns its negative result
(`None` or `False`); `get_folders_by_user_id` and
`get_folders_by_parent_id_and_user_id` have no handler and propagate the
storage exception to the caller. -/
theorem error_absorption_per_operation :
    (∀ (db : DB) (u n : String) (p : Option String) (nid : String)
        (now : Nat),
        insert_new_folder db u n p nid now true = .ok (db, none)) ∧
    (∀ (db : DB) (i u : String),
        get_folder_by_id_and_user_id db i u true = .ok none) ∧
    (∀ (db : DB) (p : Option String) (u n : String),
        get_folder_by_parent_id_and_user_id_and_name db p u n true =
          .ok none) ∧
    (∀ (db : DB) (i u p : String) (now : Nat),
        update_folder_parent_id_by_id_and_user_id db i u p now true =
          .ok (db, none)) ∧
    (∀ (db : DB) (i u n : String) (now : Nat),
        update_folder_name_by_id_and_user_id db i u n now true =
          .ok (db, none)) ∧
    (∀ (db : DB) (i u : String) (its : FolderItems) (now : Nat),
        update_folder_items_by_id_and_user_id db i u its now true =
          .ok (db, none)) ∧
    (∀ (db : DB) (i u : String),
        delete_folder_by_id_and_user_id db i u true = .ok (db, false)) ∧
    (∀ (db : DB) (u : String),
        get_folders_by_user_id db u true = .raised) ∧
    (∀ (db : DB) (p : Option String) (u : String),
        get_folders_by_parent_id_and_user_id db p u true = .raised) := by
  refine ⟨fun _ _ _ _ _ _ => rfl, fun _ _ _ => rfl, fun _ _ _ _ => rfl,
    ?_, ?_, ?_, ?_, fun _ _ => rfl, fun _ _ _ => rfl⟩
  · intro db i u p now
    unfold update_folder_parent_id_by_id_and_user_id
    cases db.find? (matchIdUser i u) <;> rfl
  · intro db i u n now
    cases h1 : db.find? (matchIdUser i u) with
    | none => simp only [update_folder_name_by_id_and_user_id, h1]
    | some folder =>
      cases h2 : db.find? (fun g =>
          g.name == n && g.parent_id == folder.parent_id &&
            g.user_id == u) with
      | none =>
        simp only [update_folder_name_by_id_and_user_id, h1, h2]
        rfl
      | some g => simp only [update_folder_name_by_id_and_user_id, h1, h2]
  · intro db i u its now
    unfold update_folder_items_by_id_and_user_id
    cases db.find? (matchIdUser i u) <;> rfl
  · intro db i u
    unfold delete_folder_by_id_and_user_id
    cases db.find? (matchIdUser i u) <;> rfl

/-- A committed row update leaves every row with a different primary key
in place. -/
theorem mem_commitUpdate_of_ne (db : DB) (f' g : FolderModel)
    (hg : g ∈ db) (hne : g.id ≠ f'.id) : g ∈ commitUpdate db f' := by
  unfold commitUpdate
  refine List.mem_map.mpr ⟨g, hg, ?_⟩
  simp [hne]

/-- C10: each successful update writes back exactly the found record with
only its targeted field and `updated_at` overwritten (so `id`, `user_id`,
`meta`, `created_at` and the non-targeted fields keep their values), the
new store is that single-row write, and every folder with a different id
is still stored unchanged. -/
theorem update_operations_frame (db : DB) (id user_id : String)
    (now : Nat) (folder : FolderModel)
    (hfind : db.find? (matchIdUser id user_id) = some folder) :
    (∀ (p : String) (db' : DB) (f' : FolderModel),
        update_folder_parent_id_by_id_and_user_id db id user_id p now false =
          .ok (db', some f') →
        f' = { folder with parent_id := some p, updated_at := now } ∧
        db' = commitUpdate db f' ∧
        ∀ g ∈ db, g.id ≠ folder.id → g ∈ db') ∧
    (∀ (n : String) (db' : DB) (f' : FolderModel),
        update_folder_name_by_id_and_user_id db id user_id n now false =
          .ok (db', some f') →
        f' = { folder with name := n, updated_at := now } ∧
        db' = commitUpdate db f' ∧
        ∀ g ∈ db, g.id ≠ folder.id → g ∈ db') ∧
    (∀ (its : FolderItems) (db' : DB) (f' : FolderModel),
        update_folder_items_by_id_and_user_id db id user_id its now false =
          .ok (db', some f') →
        f' = { folder with items := some its, updated_at := now } ∧
        db' = commitUpdate db f' ∧
        ∀ g ∈ db, g.id ≠ folder.id → g ∈ db') := by
  refine ⟨?_, ?_, ?_⟩
  · intro p db' f' h
    have heq : update_folder_parent_id_by_id_and_user_id db id user_id p
        now false =
      .ok (commitUpdate db
             { folder with parent_id := some p, updated_at := now },
           some { folder with parent_id := some p, updated_at := now }) := by
      simp [update_folder_parent_id_by_id_and_user_id, hfind]
    rw [heq] at h
    simp only [PyResult.ok.injEq, Prod.mk.injEq, Option.some.injEq] at h
    obtain ⟨hdb, hf⟩ := h
    subst hf
    refine ⟨rfl, hdb.symm, ?_⟩
    intro g hg hne
    rw [← hdb]
    exact mem_commitUpdate_of_ne db _ g hg hne
  · intro n db' f' h
    cases h2 : db.find? (fun g =>
        g.name == n && g.parent_id == folder.parent_id &&
          g.user_id == user_id) with
    | some g =>
      exfalso
      have : update_folder_name_by_id_and_user_id db id user_id n now
          false = .ok (db, none) := by
        simp only [update_folder_name_by_id_and_user_id, hfind, h2]
      rw [this] at h
      simp at h
    | none =>
      have heq : update_folder_name_by_id_and_user_id db id user_id n now
          false =
        .ok (commitUpdate db { folder with name := n, updated_at := now },
             some { folder with name := n, updated_at := now }) := by
        simp only [update_folder_name_by_id_and_user_id, hfind, h2]
        rfl
      rw [heq] at h
      simp only [PyResult.ok.injEq, Prod.mk.injEq, Option.some.injEq] at h
      obtain ⟨hdb, hf⟩ := h
      subst hf
      refine ⟨rfl, hdb.symm, ?_⟩
      intro g hg hne
      rw [← hdb]
      exact mem_commitUpdate_of_ne db _ g hg hne
  · intro its db' f' h
    have heq : update_folder_items_by_id_and_user_id db id user_id its
        now false =
      .ok (commitUpdate db
             { folder with items := some its, updated_at := now },
           some { folder with items := some its, updated_at := now }) := by
      simp [update_folder_items_by_id_and_user_id, hfind]
    rw [heq] at h
    simp only [PyResult.ok.injEq, Prod.mk.injEq, Option.some.injEq] at h
    obtain ⟨hdb, hf⟩ := h
    subst hf
    refine ⟨rfl, hdb.symm, ?_⟩
    intro g hg hne
    rw [← hdb]
    exact mem_commitUpdate_of_ne db _ g hg hne

/-- C10 witness: re-parenting "Work" writes back only that row; the
sibling "Personal" is still stored unchanged. -/
theorem update_operations_frame_witness :
    fPersonal ∈ commitUpdate [fWork, fPersonal]
      { fWork with parent_id := some "b2", updated_at := 99 } :=
  (((update_operations_frame [fWork, fPersonal] "a1" "u1" 99 fWork
      (by decide)).1 "b2"
    (commitUpdate [fWork, fPersonal]
      { fWork with parent_id := some "b2", updated_at := 99 })
    { fWork with parent_id := some "b2", updated_at := 99 }
    (by decide)).2.2) fPersonal (by decide) (by decide)
